import Mathlib

/-!
Shallow embedding of the watchlist application (`src/app7/app.py`, Flask +
SQLAlchemy + flask-login) and proofs about its authentication and catalog
logic.

Modelling conventions:
* The two database tables are a `DB` record: at most one `User` row (the
  application always queries `User.query.first()` and the admin command keeps
  a single row) and a list of `Movie` rows with an auto-increment counter
  for the primary key.
* The flask-login session is an `Option Nat` holding the logged-in user id;
  `current_user.is_authenticated` is `is_authenticated`, which goes through
  the registered `load_user` callback exactly as flask-login does.
* Werkzeug's salted hash is idealised as a collision-free record of salt and
  plaintext; `check_password_hash` compares plaintexts, and raises
  (`Except.error "AttributeError"`) when the stored hash is `None`, because
  the real primitive calls `.split` / `.count` on the stored value.
* Each request handler is a pure function from the database, the session and
  the form fields to a `HandlerResult` (new database, new session, response,
  flashed messages).  The `login` handler can raise, so it returns `Except`.
-/

namespace Watchlist

/-- A salted one-way password hash, as produced by
`werkzeug.security.generate_password_hash`.  Idealised as collision-free:
the record keeps the salt and the hashed plaintext, and the check succeeds
exactly when the plaintexts agree. -/
structure HashRecord where
  salt : Nat
  pwd : String
deriving Repr, DecidableEq

/-- `werkzeug.security.generate_password_hash(password)`: produces a salted
hash of the plaintext.  The salt is made an explicit argument. -/
def generate_password_hash (salt : Nat) (password : String) : HashRecord :=
  { salt := salt, pwd := password }

/-- `werkzeug.security.check_password_hash(pwhash, password)`.  When the
stored hash is `None` (the column was never set) the real primitive
dereferences `None` (`pwhash.split` / `pwhash.count`) and raises
`AttributeError`; this is modelled as `Except.error`. -/
def check_password_hash (pwhash : Option HashRecord) (password : String) :
    Except String Bool :=
  match pwhash with
  | none => Except.error "AttributeError"
  | some h => Except.ok (h.pwd == password)

/-- The `User` model class (`app.py` lines 99-109). -/
structure User where
  id : Nat
  name : String
  username : String
  password_hash : Option HashRecord
deriving Repr, DecidableEq

/-- `User.set_password` (`app.py` line 105): stores the generated hash in
the `password_hash` field, overwriting any prior value. -/
def User.set_password (u : User) (salt : Nat) (password : String) : User :=
  { u with password_hash := some (generate_password_hash salt password) }

/-- `User.validate_password` (`app.py` line 108): delegates directly to
`check_password_hash` on the stored hash. -/
def User.validate_password (u : User) (user_pwd : String) : Except String Bool :=
  check_password_hash u.password_hash user_pwd

/-- The `Movie` model class (`app.py` lines 111-114). -/
structure Movie where
  id : Nat
  title : String
  year : String
deriving Repr, DecidableEq

/-- The persisted state: the single `User` row (`User.query.first()`), the
`movie` table, and the auto-increment counter for `Movie.id`. -/
structure DB where
  user : Option User
  movies : List Movie
  nextMovieId : Nat
deriving Repr, DecidableEq

/-- `load_user` (`app.py` lines 118-121): the flask-login user loader,
`User.query.get(int(user_id))` — primary-key lookup in the user table. -/
def load_user (db : DB) (user_id : Nat) : Option User :=
  match db.user with
  | some u => if u.id = user_id then some u else none
  | none => none

/-- `current_user.is_authenticated`: flask-login marks the request
authenticated exactly when the session holds a user id and `load_user`
resolves it to a user row. -/
def is_authenticated (db : DB) (session : Option Nat) : Bool :=
  match session with
  | some uid => (load_user db uid).isSome
  | none => false

/-- The view a redirect points at (`url_for` targets). -/
inductive View where
  | Index
  | Login
  | Settings
  | Edit (movie_id : Nat)
deriving Repr, DecidableEq

/-- An HTTP response of the application: a redirect, a 404, or a rendered
template. -/
inductive Response where
  | redirect (target : View)
  | notFound
  | render (page : String)
deriving Repr, DecidableEq

/-- The observable outcome of one request: the database afterwards, the
session afterwards, the response, and the flashed messages. -/
structure HandlerResult where
  db : DB
  session : Option Nat
  response : Response
  flashes : List String
deriving Repr, DecidableEq

/-- The `@login_required` decorator of flask-login: anonymous requests are
redirected to `login_manager.login_view` (`'login'`, set on `app.py` line
18) with the default login message flashed; authenticated requests run the
wrapped view. -/
def login_required (db : DB) (session : Option Nat)
    (handler : Unit → HandlerResult) : HandlerResult :=
  if is_authenticated db session then handler ()
  else { db := db, session := session, response := Response.redirect View.Login,
         flashes := ["Please log in to access this page."] }

/-- `Movie.query.get(movie_id)`: primary-key lookup in the movie table. -/
def get_movie (db : DB) (movie_id : Nat) : Option Movie :=
  db.movies.find? (fun m => m.id == movie_id)

/-- POST branch of `index` (`app.py` lines 123-140): inline guard redirecting
anonymous users to the index page, then validation, then insertion of the
new `Movie` row. -/
def index_post (db : DB) (session : Option Nat) (title year : String) :
    HandlerResult :=
  if ¬ is_authenticated db session then
    { db := db, session := session, response := Response.redirect View.Index,
      flashes := [] }
  else if title = "" ∨ year = "" ∨ year.length > 4 ∨ title.length > 60 then
    { db := db, session := session, response := Response.redirect View.Index,
      flashes := ["Invalid input."] }
  else
    { db := { db with
        movies := db.movies ++ [{ id := db.nextMovieId, title := title, year := year }],
        nextMovieId := db.nextMovieId + 1 },
      session := session, response := Response.redirect View.Index,
      flashes := ["Item created."] }

/-- GET branch of `edit` (`app.py` lines 145-148, 164): `@login_required`,
then `get_or_404`, then rendering of the edit form. -/
def edit_get (db : DB) (session : Option Nat) (movie_id : Nat) : HandlerResult :=
  login_required db session (fun _ =>
    match get_movie db movie_id with
    | none =>
      { db := db, session := session, response := Response.notFound, flashes := [] }
    | some _ =>
      { db := db, session := session, response := Response.render "edit.html",
        flashes := [] })

/-- POST branch of `edit` (`app.py` lines 145-162): `@login_required`, then
`get_or_404`, then validation, then in-place update of title and year of
the fetched row. -/
def edit_post (db : DB) (session : Option Nat) (movie_id : Nat)
    (title year : String) : HandlerResult :=
  login_required db session (fun _ =>
    match get_movie db movie_id with
    | none =>
      { db := db, session := session, response := Response.notFound, flashes := [] }
    | some _ =>
      if title = "" ∨ year = "" ∨ year.length > 4 ∨ title.length > 60 then
        { db := db, session := session,
          response := Response.redirect (View.Edit movie_id),
          flashes := ["Invalid input"] }
      else
        { db := { db with movies := db.movies.map (fun m =>
            if m.id == movie_id then { m with title := title, year := year } else m) },
          session := session, response := Response.redirect View.Index,
          flashes := ["Item update."] })

/-- `delete` (`app.py` lines 167-174): `@login_required`, then `get_or_404`,
then removal of the row with that primary key. -/
def delete_post (db : DB) (session : Option Nat) (movie_id : Nat) : HandlerResult :=
  login_required db session (fun _ =>
    match get_movie db movie_id with
    | none =>
      { db := db, session := session, response := Response.notFound, flashes := [] }
    | some _ =>
      { db := { db with movies := db.movies.filter (fun m => m.id != movie_id) },
        session := session, response := Response.redirect View.Index,
        flashes := ["Item deleted."] })

/-- POST branch of `login` (`app.py` lines 177-195).  `User.query.first()`
may return `None`, in which case `username == user.username` raises
`AttributeError`; Python short-circuits `and`, so `validate_password` only
runs when the username matches. -/
def login_post (db : DB) (session : Option Nat) (username password : String) :
    Except String HandlerResult :=
  if username = "" ∨ password = "" then
    Except.ok
      { db := db, session := session,
        response := Response.redirect View.Login, flashes := ["Invalid input."] }
  else
    match db.user with
    | none => Except.error "AttributeError"
    | some user =>
      if username = user.username then
        match user.validate_password password with
        | Except.error e => Except.error e
        | Except.ok true =>
          Except.ok
            { db := db, session := some user.id,
              response := Response.redirect View.Index,
              flashes := ["Login success."] }
        | Except.ok false =>
          Except.ok
            { db := db, session := session,
              response := Response.redirect View.Login,
              flashes := ["Invalid username or password."] }
      else
        Except.ok
          { db := db, session := session,
            response := Response.redirect View.Login,
            flashes := ["Invalid username or password."] }

/-- `logout` (`app.py` lines 199-204): `@login_required`, then session
invalidation. -/
def logout_get (db : DB) (session : Option Nat) : HandlerResult :=
  login_required db session (fun _ =>
    { db := db, session := none, response := Response.redirect View.Index,
      flashes := ["Goodbye"] })

/-- POST branch of `settings` (`app.py` lines 207-224): `@login_required`,
then validation, then `current_user.name = name` — an update of the row
`load_user` resolved from the session. -/
def settings_post (db : DB) (session : Option Nat) (name : String) : HandlerResult :=
  login_required db session (fun _ =>
    if name = "" ∨ name.length > 20 then
      { db := db, session := session, response := Response.redirect View.Settings,
        flashes := ["Invalid input."] }
    else
      { db := { db with user := db.user.map (fun u =>
          if some u.id = session then { u with name := name } else u) },
        session := session, response := Response.redirect View.Index,
        flashes := ["Settings updated."] })

/-- A concrete admin user used in witnesses. -/
def adminUser : User :=
  { id := 1, name := "minastinis", username := "minastinis",
    password_hash := some (generate_password_hash 0 "secret") }

/-- A concrete database with the admin user and one movie. -/
def sampleDB : DB :=
  { user := some adminUser,
    movies := [{ id := 1, title := "Leon", year := "1994" }],
    nextMovieId := 2 }

example : is_authenticated sampleDB (some 1) = true := by decide
example : is_authenticated sampleDB none = false := by decide
example : (index_post sampleDB (some 1) "WALL-E" "2008").db.movies =
    [{ id := 1, title := "Leon", year := "1994" },
     { id := 2, title := "WALL-E", year := "2008" }] := by decide
example : (index_post sampleDB none "WALL-E" "2008").response =
    Response.redirect View.Index := by decide
example : (edit_post sampleDB none 1 "t" "2000").response =
    Response.redirect View.Login := by decide
example : login_post { user := none, movies := [], nextMovieId := 1 } none
    "alice" "secret" = Except.error "AttributeError" := rfl

/-! ### C1: guard on the four mutating routes -/

/-- C1 counterexample: the claim says every anonymous movie-mutating POST
redirects to the `/login` view, but an anonymous create (POST `/`) is
guarded inline and redirects back to the index view (`app.py` line 127),
not to `/login` — even though the state is indeed unchanged. -/
theorem c1_counterexample :
    (index_post sampleDB none "Inception" "2010").db = sampleDB ∧
    (index_post sampleDB none "Inception" "2010").response ≠
      Response.redirect View.Login := by
  constructor
  · rfl
  · decide

/-- C1 (amended): every movie-mutating POST issued while Anonymous leaves
the persisted state unchanged; edit, delete and settings redirect to the
`/login` view, while create (POST `/`) redirects back to the index view. -/
theorem c1_anonymous_guard (db : DB) (session : Option Nat)
    (title year nm : String) (movie_id : Nat)
    (h : is_authenticated db session = false) :
    ((index_post db session title year).db = db ∧
      (index_post db session title year).response = Response.redirect View.Index) ∧
    ((edit_post db session movie_id title year).db = db ∧
      (edit_post db session movie_id title year).response =
        Response.redirect View.Login) ∧
    ((delete_post db session movie_id).db = db ∧
      (delete_post db session movie_id).response = Response.redirect View.Login) ∧
    ((settings_post db session nm).db = db ∧
      (settings_post db session nm).response = Response.redirect View.Login) := by
  simp [index_post, edit_post, delete_post, settings_post, login_required, h]

/-- C1 witness: the amended guard theorem applied to the concrete sample
database with no session. -/
theorem c1_anonymous_guard_witness :
    ((index_post sampleDB none "T" "2000").db = sampleDB ∧
      (index_post sampleDB none "T" "2000").response = Response.redirect View.Index) ∧
    ((edit_post sampleDB none 1 "T" "2000").db = sampleDB ∧
      (edit_post sampleDB none 1 "T" "2000").response =
        Response.redirect View.Login) ∧
    ((delete_post sampleDB none 1).db = sampleDB ∧
      (delete_post sampleDB none 1).response = Response.redirect View.Login) ∧
    ((settings_post sampleDB none "bob").db = sampleDB ∧
      (settings_post sampleDB none "bob").response =
        Response.redirect View.Login) :=
  c1_anonymous_guard sampleDB none "T" "2000" "bob" 1 (by decide)

/-! ### C2: successful create appends exactly one movie -/

/-- C2: for every nonempty title of length ≤ 60 and nonempty year of length
≤ 4, an authenticated create succeeds (flashes the success notification)
and the resulting catalog is the prior catalog plus exactly one new movie
with that title and year. -/
theorem c2_create_valid (db : DB) (session : Option Nat) (title year : String)
    (hauth : is_authenticated db session = true)
    (ht : title ≠ "") (ht60 : title.length ≤ 60)
    (hy : year ≠ "") (hy4 : year.length ≤ 4) :
    (index_post db session title year).db.movies =
      db.movies ++ [{ id := db.nextMovieId, title := title, year := year }] ∧
    (index_post db session title year).db.user = db.user ∧
    (index_post db session title year).flashes = ["Item created."] := by
  have hcond : ¬ (title = "" ∨ year = "" ∨ year.length > 4 ∨ title.length > 60) := by
    push_neg
    exact ⟨ht, hy, Nat.not_lt.mp (by omega), Nat.not_lt.mp (by omega)⟩
  simp [index_post, hauth, hcond]

/-- C2 witness: creating "WALL-E"/"2008" in the sample database. -/
theorem c2_create_valid_witness :
    (index_post sampleDB (some 1) "WALL-E" "2008").db.movies =
      sampleDB.movies ++
        [{ id := sampleDB.nextMovieId, title := "WALL-E", year := "2008" }] ∧
    (index_post sampleDB (some 1) "WALL-E" "2008").db.user = sampleDB.user ∧
    (index_post sampleDB (some 1) "WALL-E" "2008").flashes = ["Item created."] :=
  c2_create_valid sampleDB (some 1) "WALL-E" "2008" (by decide) (by decide)
    (by decide) (by decide) (by decide)

/-! ### C3: invalid create is rejected and changes nothing -/

/-- C3: for every title that is empty or longer than 60 characters, and
likewise for every year that is empty or longer than 4 characters, an
authenticated create fails validation, flashes the validation notification
and leaves the database exactly unchanged. -/
theorem c3_create_invalid (db : DB) (session : Option Nat) (title year : String)
    (hauth : is_authenticated db session = true)
    (h : (title = "" ∨ title.length > 60) ∨ (year = "" ∨ year.length > 4)) :
    (index_post db session title year).db = db ∧
    (index_post db session title year).flashes = ["Invalid input."] ∧
    (index_post db session title year).response = Response.redirect View.Index := by
  have hcond : title = "" ∨ year = "" ∨ year.length > 4 ∨ title.length > 60 := by
    tauto
  simp [index_post, hauth, hcond]

/-- C3 witness: creating with an empty title in the sample database. -/
theorem c3_create_invalid_witness :
    (index_post sampleDB (some 1) "" "2010").db = sampleDB ∧
    (index_post sampleDB (some 1) "" "2010").flashes = ["Invalid input."] ∧
    (index_post sampleDB (some 1) "" "2010").response =
      Response.redirect View.Index :=
  c3_create_invalid sampleDB (some 1) "" "2010" (by decide) (Or.inl (Or.inl rfl))

/-! ### C4: validate_password on a user with no stored hash -/

/-- A user record whose `password_hash` column was never set. -/
def noHashUser : User :=
  { id := 1, name := "minastinis", username := "minastinis", password_hash := none }

/-- C4 counterexample: the claim says `validate_password` returns false and
never raises when no hash is stored, but the code delegates directly to
`check_password_hash`, which dereferences the `None` hash and raises
`AttributeError`. -/
theorem c4_counterexample :
    noHashUser.password_hash = none ∧
    noHashUser.validate_password "secret" = Except.error "AttributeError" :=
  ⟨rfl, rfl⟩

/-- C4 (amended): for every plaintext, calling `validate_password` on a user
record whose `password_hash` is unset raises `AttributeError` (the
hash-compare primitive fails on the missing hash) instead of returning
false. -/
theorem c4_no_hash_raises (u : User) (p : String)
    (h : u.password_hash = none) :
    u.validate_password p = Except.error "AttributeError" := by
  simp [User.validate_password, check_password_hash, h]

/-- C4 witness: the amended theorem applied to the concrete hashless user. -/
theorem c4_no_hash_raises_witness :
    noHashUser.validate_password "pw" = Except.error "AttributeError" :=
  c4_no_hash_raises noHashUser "pw" rfl

/-! ### C5: validate_password inverts the latest set_password -/

/-- C5: after `set_password p`, `validate_password q` succeeds with `true`
exactly when `q = p`, the plaintext most recently stored — whatever the
prior hash was, so re-setting the password invalidates every previously
valid plaintext. -/
theorem c5_validate_iff_latest (u : User) (salt : Nat) (p q : String) :
    (u.set_password salt p).validate_password q = Except.ok true ↔ q = p := by
  simp only [User.set_password, User.validate_password, check_password_hash,
    generate_password_hash, Except.ok.injEq, beq_iff_eq]
  exact eq_comm

/-! ### C6: missing movie id yields 404 and no state change -/

/-- C6: for every movie id absent from the catalog, an authenticated GET or
POST on the edit route and an authenticated POST on the delete route all
return the not-found response and leave the database, the session and the
flashed messages untouched. -/
theorem c6_missing_id_not_found (db : DB) (session : Option Nat)
    (movie_id : Nat) (title year : String)
    (hauth : is_authenticated db session = true)
    (h : get_movie db movie_id = none) :
    edit_get db session movie_id =
      { db := db, session := session, response := Response.notFound,
        flashes := [] } ∧
    edit_post db session movie_id title year =
      { db := db, session := session, response := Response.notFound,
        flashes := [] } ∧
    delete_post db session movie_id =
      { db := db, session := session, response := Response.notFound,
        flashes := [] } := by
  simp [edit_get, edit_post, delete_post, login_required, hauth, h]

/-- C6 witness: id 7 is absent from the sample database. -/
theorem c6_missing_id_not_found_witness :
    edit_get sampleDB (some 1) 7 =
      { db := sampleDB, session := some 1, response := Response.notFound,
        flashes := [] } ∧
    edit_post sampleDB (some 1) 7 "T" "2000" =
      { db := sampleDB, session := some 1, response := Response.notFound,
        flashes := [] } ∧
    delete_post sampleDB (some 1) 7 =
      { db := sampleDB, session := some 1, response := Response.notFound,
        flashes := [] } :=
  c6_missing_id_not_found sampleDB (some 1) 7 "T" "2000" (by decide) (by decide)

/-! ### C7: update followed by a read returns the written pair -/

/-- Primary-key lookup after the in-place update of `edit_post`: when the id
was present, the lookup now returns a record carrying the written title and
year.  The update map keeps every record's id, so the search is insensitive
to it. -/
theorem find?_after_update (l : List Movie) (movie_id : Nat) (title year : String)
    (h : (l.find? (fun m => m.id == movie_id)).isSome = true) :
    ((l.map (fun m => if m.id == movie_id
          then { m with title := title, year := year } else m)).find?
        (fun m => m.id == movie_id)).map (fun m => (m.title, m.year))
      = some (title, year) := by
  induction l with
  | nil => simp at h
  | cons a l ih =>
    by_cases hid : a.id = movie_id
    · simp [hid]
    · have ha : (a.id == movie_id) = false := by simp [hid]
      simp only [List.find?_cons, ha] at h
      simp only [List.map_cons, ha, Bool.false_eq_true, if_false, List.find?_cons]
      exact ih h

/-- C7: for every movie id present in the catalog and every valid title and
year, an authenticated update via the edit route followed by a primary-key
read of that id returns exactly the written (title, year) pair. -/
theorem c7_update_round_trip (db : DB) (session : Option Nat) (movie_id : Nat)
    (title year : String) (m0 : Movie)
    (hauth : is_authenticated db session = true)
    (hfound : get_movie db movie_id = some m0)
    (ht : title ≠ "") (ht60 : title.length ≤ 60)
    (hy : year ≠ "") (hy4 : year.length ≤ 4) :
    (get_movie (edit_post db session movie_id title year).db movie_id).map
      (fun m => (m.title, m.year)) = some (title, year) := by
  have hcond : ¬ (title = "" ∨ year = "" ∨ year.length > 4 ∨ title.length > 60) := by
    push_neg
    exact ⟨ht, hy, by omega, by omega⟩
  have hsome : (db.movies.find? (fun m => m.id == movie_id)).isSome = true := by
    unfold get_movie at hfound
    rw [hfound]
    rfl
  simp only [edit_post, login_required, hauth, if_true, hfound, hcond, if_false]
  exact find?_after_update db.movies movie_id title year hsome

/-- C7 witness: updating movie 1 of the sample database to
("New Title", "1999") and reading it back. -/
theorem c7_update_round_trip_witness :
    (get_movie (edit_post sampleDB (some 1) 1 "New Title" "1999").db 1).map
      (fun m => (m.title, m.year)) = some ("New Title", "1999") :=
  c7_update_round_trip sampleDB (some 1) 1 "New Title" "1999"
    { id := 1, title := "Leon", year := "1994" } (by decide) (by decide)
    (by decide) (by decide) (by decide) (by decide)

/-! ### C8: login failure handling -/

/-- A database in which no user record was ever created. -/
def emptyDB : DB := { user := none, movies := [], nextMovieId := 1 }

/-- C8 counterexample: the claim says a non-authenticating login submission
never raises, including when no user record exists — but with no user row
`User.query.first()` returns `None` and `username == user.username` raises
`AttributeError`. -/
theorem c8_counterexample :
    login_post emptyDB none "alice" "secret" = Except.error "AttributeError" :=
  rfl

/-- C8 (amended): provided a user record exists and both submitted fields
are nonempty, every login submission that does not authenticate (username
not matching the stored user, or the stored hash rejecting the password)
redirects back to the login form with the same generic
invalid-username-or-password notification and raises nothing; when no user
record exists the handler raises, and a submission with an empty field is
answered with the distinct invalid-input notification instead. -/
theorem c8_generic_failure (db : DB) (session : Option Nat)
    (username password : String) (user : User)
    (huser : db.user = some user) (hu : username ≠ "") (hp : password ≠ "")
    (hfail : username ≠ user.username ∨
      user.validate_password password = Except.ok false) :
    login_post db session username password =
      Except.ok
        { db := db, session := session,
          response := Response.redirect View.Login,
          flashes := ["Invalid username or password."] } := by
  have hne : ¬ (username = "" ∨ password = "") := by tauto
  rcases hfail with hmm | hval
  · simp [login_post, hne, huser, hmm]
  · by_cases heq : username = user.username
    · subst heq
      simp [login_post, huser, hval, hu, hp]
    · simp [login_post, hne, huser, heq]

/-- C8 witness: a wrong password against the sample admin user flashes the
generic notification. -/
theorem c8_generic_failure_witness :
    login_post sampleDB none "minastinis" "wrong" =
      Except.ok
        { db := sampleDB, session := none,
          response := Response.redirect View.Login,
          flashes := ["Invalid username or password."] } :=
  c8_generic_failure sampleDB none "minastinis" "wrong" adminUser rfl
    (by decide) (by decide) (Or.inr rfl)

/-! ### C9: settings update of the display name -/

/-- C9: for the authenticated user, the settings POST rejects an empty or
longer-than-20-character name with the validation notification and no state
change, and otherwise overwrites exactly the user's name field, leaving the
movie catalog alone. -/
theorem c9_settings_update (db : DB) (session : Option Nat) (nm : String)
    (u : User) (huser : db.user = some u) (hsess : session = some u.id) :
    ((nm = "" ∨ nm.length > 20) →
      (settings_post db session nm).db = db ∧
      (settings_post db session nm).flashes = ["Invalid input."] ∧
      (settings_post db session nm).response = Response.redirect View.Settings) ∧
    (¬ (nm = "" ∨ nm.length > 20) →
      (settings_post db session nm).db.user = some { u with name := nm } ∧
      (settings_post db session nm).db.movies = db.movies ∧
      (settings_post db session nm).flashes = ["Settings updated."]) := by
  subst hsess
  have hauth : is_authenticated db (some u.id) = true := by
    simp [is_authenticated, load_user, huser]
  constructor
  · intro hbad
    simp [settings_post, login_required, hauth, hbad]
  · intro hgood
    simp [settings_post, login_required, hauth, hgood, huser]

/-- C9 witness: the settings theorem at the sample database with the valid
name "bob". -/
theorem c9_settings_update_witness :
    (("bob" = "" ∨ "bob".length > 20) →
      (settings_post sampleDB (some 1) "bob").db = sampleDB ∧
      (settings_post sampleDB (some 1) "bob").flashes = ["Invalid input."] ∧
      (settings_post sampleDB (some 1) "bob").response =
        Response.redirect View.Settings) ∧
    (¬ ("bob" = "" ∨ "bob".length > 20) →
      (settings_post sampleDB (some 1) "bob").db.user =
        some { adminUser with name := "bob" } ∧
      (settings_post sampleDB (some 1) "bob").db.movies = sampleDB.movies ∧
      (settings_post sampleDB (some 1) "bob").flashes = ["Settings updated."]) :=
  c9_settings_update sampleDB (some 1) "bob" adminUser rfl rfl

/-! ### C10: successful catalog operations modify only their target -/

/-- C10: a successful create keeps the user record and leaves every
pre-existing movie in place (the old catalog is a prefix of the new one); a
successful update keeps the user record, keeps every movie with a
different id unchanged, rewrites exactly the title and year of the movie
with the target id (its id preserved), and introduces no other records; a
successful delete keeps the user record and removes exactly the records
with the target id. -/
theorem c10_frame_effects (db : DB) (session : Option Nat)
    (title year : String) (movie_id : Nat) (m0 : Movie)
    (hauth : is_authenticated db session = true)
    (ht : title ≠ "") (ht60 : title.length ≤ 60)
    (hy : year ≠ "") (hy4 : year.length ≤ 4)
    (hfound : get_movie db movie_id = some m0) :
    ((index_post db session title year).db.user = db.user ∧
      (index_post db session title year).db.movies.take db.movies.length
        = db.movies) ∧
    ((edit_post db session movie_id title year).db.user = db.user ∧
      (∀ m ∈ db.movies, m.id ≠ movie_id →
        m ∈ (edit_post db session movie_id title year).db.movies) ∧
      (∀ m ∈ db.movies, m.id = movie_id →
        { m with title := title, year := year }
          ∈ (edit_post db session movie_id title year).db.movies) ∧
      (∀ m ∈ (edit_post db session movie_id title year).db.movies,
        m.id ≠ movie_id → m ∈ db.movies)) ∧
    ((delete_post db session movie_id).db.user = db.user ∧
      (∀ m ∈ db.movies, m.id ≠ movie_id →
        m ∈ (delete_post db session movie_id).db.movies) ∧
      (∀ m ∈ (delete_post db session movie_id).db.movies,
        m ∈ db.movies ∧ m.id ≠ movie_id)) := by
  have hcond : ¬ (title = "" ∨ year = "" ∨ year.length > 4 ∨ title.length > 60) := by
    push_neg
    exact ⟨ht, hy, by omega, by omega⟩
  refine ⟨⟨?_, ?_⟩, ⟨?_, ?_, ?_, ?_⟩, ⟨?_, ?_, ?_⟩⟩
  · simp [index_post, hauth, hcond]
  · simp [index_post, hauth, hcond, List.take_left]
  · simp [edit_post, login_required, hauth, hfound, hcond]
  · intro m hm hne
    simp only [edit_post, login_required, hauth, if_true, hfound, hcond, if_false,
      List.mem_map]
    exact ⟨m, hm, by simp [hne]⟩
  · intro m hm hid
    simp only [edit_post, login_required, hauth, if_true, hfound, hcond, if_false,
      List.mem_map]
    exact ⟨m, hm, by simp [hid]⟩
  · intro m hm hne
    simp only [edit_post, login_required, hauth, if_true, hfound, hcond, if_false,
      List.mem_map] at hm
    obtain ⟨a, ha, hfa⟩ := hm
    by_cases haid : a.id = movie_id
    · rw [if_pos (by simpa using haid)] at hfa
      exact absurd (by rw [← hfa]; exact haid) hne
    · rw [if_neg (by simpa using haid)] at hfa
      exact hfa ▸ ha
  · simp [delete_post, login_required, hauth, hfound]
  · intro m hm hne
    simp [delete_post, login_required, hauth, hfound, List.mem_filter, hm, hne]
  · intro m hm
    simp only [delete_post, login_required, hauth, if_true, hfound,
      List.mem_filter] at hm
    refine ⟨hm.1, ?_⟩
    simpa using hm.2

/-- C10 witness: the frame theorem at the sample database, creating
("WALL-E", "2008") and updating or deleting movie 1. -/
theorem c10_frame_effects_witness :
    ((index_post sampleDB (some 1) "WALL-E" "2008").db.user = sampleDB.user ∧
      (index_post sampleDB (some 1) "WALL-E" "2008").db.movies.take
        sampleDB.movies.length = sampleDB.movies) ∧
    ((edit_post sampleDB (some 1) 1 "WALL-E" "2008").db.user = sampleDB.user ∧
      (∀ m ∈ sampleDB.movies, m.id ≠ 1 →
        m ∈ (edit_post sampleDB (some 1) 1 "WALL-E" "2008").db.movies) ∧
      (∀ m ∈ sampleDB.movies, m.id = 1 →
        { m with title := "WALL-E", year := "2008" }
          ∈ (edit_post sampleDB (some 1) 1 "WALL-E" "2008").db.movies) ∧
      (∀ m ∈ (edit_post sampleDB (some 1) 1 "WALL-E" "2008").db.movies,
        m.id ≠ 1 → m ∈ sampleDB.movies)) ∧
    ((delete_post sampleDB (some 1) 1).db.user = sampleDB.user ∧
      (∀ m ∈ sampleDB.movies, m.id ≠ 1 →
        m ∈ (delete_post sampleDB (some 1) 1).db.movies) ∧
      (∀ m ∈ (delete_post sampleDB (some 1) 1).db.movies,
        m ∈ sampleDB.movies ∧ m.id ≠ 1)) :=
  c10_frame_effects sampleDB (some 1) "WALL-E" "2008" 1
    { id := 1, title := "Leon", year := "1994" } (by decide) (by decide)
    (by decide) (by decide) (by decide) (by decide)

end Watchlist
